import Mathlib

/-!
Verification of the conversation-history state machine and audio pipeline of
`wyn_voice/chat.py` (classes `ChatBot` and `AudioProcessor`).

The Python code is shallowly embedded: the mutable `self.history` list becomes
explicit state passing on a `ChatBot` structure, the external OpenAI client
calls (chat completion, transcription, speech synthesis) and the browser audio
capture become function parameters (the "collaborators"), the local filesystem
(`audio.wav`, `output.mp3`) becomes an explicit map from path to content, and
the `display(Audio(...))` playback side effect becomes an explicit event list.
The fallible chat-completion call is modelled with `Except`: a Python exception
raised by `self.client.chat.completions.create` is an `Except.error` that the
caller receives unchanged.
-/

namespace WynVoice

/-- Message roles, as the `"role"` strings `"system"`, `"user"`, `"assistant"`
used in `chat.py`. -/
inductive Role where
  | system
  | user
  | assistant
deriving DecidableEq, Repr

/-- One entry of `self.history`: the dict `{"role": ..., "content": ...}`. -/
structure Message where
  role : Role
  content : String
deriving DecidableEq, Repr

/-- The `ChatBot` state. The Python `__init__` also stores `self.client`
(the OpenAI client built from `api_key`); the client's operations are modelled
as explicit collaborator function parameters of each method, so the state keeps
only `protocol` and `history`. -/
structure ChatBot where
  protocol : String
  history : List Message
deriving DecidableEq, Repr

/-- `ChatBot.__init__(api_key, protocol="You are a helpful assistant")`:
`self.protocol = protocol; self.history = [{"role": "system", "content": self.protocol}]`. -/
def ChatBot.init (protocol : String) : ChatBot :=
  { protocol := protocol
    history := [{ role := Role.system, content := protocol }] }

/-- `ChatBot.generate_response(prompt)`.
The Python body appends `{"role": "user", "content": prompt}` to
`self.history`, calls `self.client.chat.completions.create(model=..., messages=self.history)`
(so the collaborator sees the list *after* the user append), then on success
appends `{"role": "assistant", "content": response}` and returns `response`.
If the completion call raises, the exception propagates and the state keeps the
appended user message. `complete` is the completion collaborator; `ε` is its
error (exception) type. -/
def ChatBot.generate_response (complete : List Message → Except ε String)
    (bot : ChatBot) (prompt : String) : ChatBot × Except ε String :=
  let historyAfterUser := bot.history ++ [{ role := Role.user, content := prompt }]
  match complete historyAfterUser with
  | Except.error e => ({ bot with history := historyAfterUser }, Except.error e)
  | Except.ok response =>
      ({ bot with
          history := historyAfterUser ++ [{ role := Role.assistant, content := response }] },
        Except.ok response)

/-- `ChatBot.get_history()`: `return self.history` (functional view of the
returned value; the Python aliasing of the returned list is modelled separately
below by `ChatBotRef.get_history`). -/
def ChatBot.get_history (bot : ChatBot) : List Message :=
  bot.history

/-! ### Reference semantics of `get_history`

Python's `return self.history` returns the stored list object itself, not a
copy. To talk about what a caller can do with the returned value we model the
list store explicitly: `PyListStore` maps a list reference (an id) to its
contents, a `ChatBotRef` holds a reference to its history list, and
`get_history` returns that reference. -/

/-- The store of Python list objects: reference id to current contents. -/
structure PyListStore where
  lists : Nat → List Message

/-- A `ChatBot` whose `self.history` is a reference into a `PyListStore`. -/
structure ChatBotRef where
  protocol : String
  historyRef : Nat

/-- `ChatBot.get_history()` under reference semantics: `return self.history`
hands the caller the stored list reference itself. -/
def ChatBotRef.get_history (bot : ChatBotRef) : Nat :=
  bot.historyRef

/-- Dereference: the current contents of list `r`. -/
def PyListStore.read (s : PyListStore) (r : Nat) : List Message :=
  s.lists r

/-- `lst.append(m)` on the list object `r`: mutates that one list in place. -/
def PyListStore.append (s : PyListStore) (r : Nat) (m : Message) : PyListStore :=
  { lists := fun i => if i = r then s.lists i ++ [m] else s.lists i }

/-! ### AudioProcessor -/

/-- The local filesystem seen by `chat.py`: path to file content (`none` means
the file does not exist). `audio.wav` and `output.mp3` live here. -/
def FS : Type := String → Option String

/-- `open(path, "wb"); f.write(content)`: create or overwrite `path`. -/
def FS.write (fs : FS) (path content : String) : FS :=
  fun p => if p = path then some content else fs p

/-- A playback event: `display(Audio(file_path, autoplay=play_it))` recorded as
the pair (file path, autoplay flag). -/
def PlayEvent : Type := String × Bool

/-- The `AudioProcessor` state: `self.chatbot = bot`. -/
structure AudioProcessor where
  chatbot : ChatBot
deriving DecidableEq, Repr

/-- `AudioProcessor.play_audio(file_path, play_it=True)`:
`display(Audio(file_path, autoplay=play_it))`, a pure side effect returned as
one playback event. -/
def AudioProcessor.play_audio (file_path : String) (play_it : Bool) : List PlayEvent :=
  [(file_path, play_it)]

/-- `AudioProcessor.record_audio(sec=3)`: runs the browser recorder via
`output.eval_js('record(%d)' % (sec * 1000))` (modelled by the capture
collaborator, taking milliseconds), decodes the base64 payload and writes the
bytes to `'audio.wav'`, returning that file name. -/
def AudioProcessor.record_audio (capture : Nat → String) (fs : FS) (sec : Nat) :
    String × FS :=
  let b := capture (sec * 1000)
  ("audio.wav", fs.write "audio.wav" b)

/-- `AudioProcessor.voice_to_text(sec=3)`: records audio (writing `audio.wav`),
opens the saved file and sends its bytes to the transcription collaborator
(`self.chatbot.client.audio.transcriptions.create(model="whisper-1", ...)`),
returning `transcript.text`. Does not touch `self.chatbot.history`.
Result: (transcribed text, audio-processor state, filesystem). -/
def AudioProcessor.voice_to_text (capture : Nat → String) (transcribe : String → String)
    (fs : FS) (ap : AudioProcessor) (sec : Nat) : String × AudioProcessor × FS :=
  let rec1 := AudioProcessor.record_audio capture fs sec
  let audio_file := rec1.1
  let fs1 := rec1.2
  let bytes := (fs1 audio_file).getD ""
  (transcribe bytes, ap, fs1)

/-- `AudioProcessor.text_to_voice(text, autoplay=True)`: sends `text` to the
speech-synthesis collaborator
(`self.chatbot.client.audio.speech.create(model="tts-1", voice="alloy", input=text)`),
writes the result to `"output.mp3"`, plays it with `play_audio(speech_file_path, autoplay)`
and returns the path. Does not touch `self.chatbot.history`.
Result: (returned path, audio-processor state, filesystem, playback events). -/
def AudioProcessor.text_to_voice (synthesize : String → String) (fs : FS)
    (ap : AudioProcessor) (text : String) (autoplay : Bool) :
    String × AudioProcessor × FS × List PlayEvent :=
  let speech := synthesize text
  let speech_file_path := "output.mp3"
  let fs1 := fs.write speech_file_path speech
  let plays := AudioProcessor.play_audio speech_file_path autoplay
  (speech_file_path, ap, fs1, plays)

/-- `AudioProcessor.process_audio_and_generate_response()`: records audio
(`record_audio()`, writing `audio.wav`), transcribes the saved file, calls
`self.chatbot.generate_response(transcript.text)`, synthesizes the answer to
`"output.mp3"`, plays it with `self.play_audio(speech_file_path)` (default
`play_it=True`) and returns `transcript.text`. If the completion collaborator
raises, the exception propagates before synthesis and playback happen.
Result: (return value or error, audio-processor state, filesystem, playback events). -/
def AudioProcessor.process_audio_and_generate_response
    (capture : Nat → String) (transcribe : String → String)
    (complete : List Message → Except ε String) (synthesize : String → String)
    (fs : FS) (ap : AudioProcessor) :
    Except ε String × AudioProcessor × FS × List PlayEvent :=
  let rec1 := AudioProcessor.record_audio capture fs 3
  let audio_file := rec1.1
  let fs1 := rec1.2
  let bytes := (fs1 audio_file).getD ""
  let transcript := transcribe bytes
  match ChatBot.generate_response complete ap.chatbot transcript with
  | (bot1, Except.error e) => (Except.error e, { chatbot := bot1 }, fs1, [])
  | (bot1, Except.ok bot_answer) =>
      let speech := synthesize bot_answer
      let speech_file_path := "output.mp3"
      let fs2 := fs1.write speech_file_path speech
      let plays := AudioProcessor.play_audio speech_file_path true
      (Except.ok transcript, { chatbot := bot1 }, fs2, plays)

/-! ### Session runners

Harnesses that drive the embedded operations, used to state the claims that
quantify over whole call sequences. -/

/-- One caller-visible operation on a session: a `generate_response` call (with
its completion collaborator and prompt), a `voice_to_text` call, or a
`text_to_voice` call. -/
inductive Op (ε : Type) where
  | generate (complete : List Message → Except ε String) (prompt : String)
  | voiceToText (capture : Nat → String) (transcribe : String → String) (sec : Nat)
  | textToVoice (synthesize : String → String) (text : String) (autoplay : Bool)

/-- Run a sequence of operations on a session, threading the audio-processor
state and the filesystem. A failed `generate_response` keeps its partial state
change (the user append), exactly as the Python exception path does. -/
def runOps (ap : AudioProcessor) (fs : FS) : List (Op ε) → AudioProcessor × FS
  | [] => (ap, fs)
  | Op.generate complete prompt :: ops =>
      let r := ChatBot.generate_response complete ap.chatbot prompt
      runOps { chatbot := r.1 } fs ops
  | Op.voiceToText capture transcribe sec :: ops =>
      let r := AudioProcessor.voice_to_text capture transcribe fs ap sec
      runOps r.2.1 r.2.2 ops
  | Op.textToVoice synthesize text autoplay :: ops =>
      let r := AudioProcessor.text_to_voice synthesize fs ap text autoplay
      runOps r.2.1 r.2.2.1 ops

/-- Run a sequence of `generate_response` calls, one per prompt, with a fixed
completion collaborator; `none` if some call raises (so `some` means every
turn succeeded). -/
def runTurns (complete : List Message → Except ε String) (bot : ChatBot) :
    List String → Option ChatBot
  | [] => some bot
  | prompt :: prompts =>
      match ChatBot.generate_response complete bot prompt with
      | (_, Except.error _) => none
      | (bot1, Except.ok _) => runTurns complete bot1 prompts

/-! ### Helper lemmas -/

/-- Whatever the completion collaborator does, `generate_response` only appends
to the history: the new history is the old one followed by some tail. -/
theorem generate_response_history_extends (complete : List Message → Except ε String)
    (bot : ChatBot) (prompt : String) :
    ∃ tail, (ChatBot.generate_response complete bot prompt).1.history =
      bot.history ++ tail := by
  unfold ChatBot.generate_response
  cases hc : complete (bot.history ++ [{ role := Role.user, content := prompt }]) with
  | error e =>
      refine ⟨[{ role := Role.user, content := prompt }], ?_⟩
      simp [hc]
  | ok r =>
      refine ⟨[{ role := Role.user, content := prompt },
        { role := Role.assistant, content := r }], ?_⟩
      simp [hc]

/-- When the completion collaborator succeeds, `generate_response` appends
exactly the user message and the assistant message, and returns the latter's
content. -/
theorem generate_response_ok_history (complete : List Message → Except ε String)
    (bot bot1 : ChatBot) (prompt r : String)
    (h : ChatBot.generate_response complete bot prompt = (bot1, Except.ok r)) :
    bot1.history = bot.history ++
      [{ role := Role.user, content := prompt }, { role := Role.assistant, content := r }] := by
  unfold ChatBot.generate_response at h
  cases hc : complete (bot.history ++ [{ role := Role.user, content := prompt }]) with
  | error e => simp [hc] at h
  | ok resp =>
      simp only [hc, Prod.mk.injEq, Except.ok.injEq] at h
      obtain ⟨h1, h2⟩ := h
      rw [← h1, h2]
      simp

/-- When the completion collaborator raises, `generate_response` keeps exactly
the user append and surfaces the error unchanged. -/
theorem generate_response_error_unfold (complete : List Message → Except ε String)
    (bot : ChatBot) (prompt : String) (e : ε)
    (h : complete (bot.history ++ [{ role := Role.user, content := prompt }]) =
      Except.error e) :
    ChatBot.generate_response complete bot prompt =
      ({ bot with history := bot.history ++ [{ role := Role.user, content := prompt }] },
        Except.error e) := by
  unfold ChatBot.generate_response
  simp only [h]

/-- Running any operation sequence preserves the head of a nonempty history:
each operation either appends to the history or leaves it alone. -/
theorem runOps_head_cons (ops : List (Op ε)) :
    ∀ (ap : AudioProcessor) (fs : FS) (m : Message) (rest : List Message),
      ap.chatbot.history = m :: rest →
      ∃ rest', (runOps ap fs ops).1.chatbot.history = m :: rest' := by
  induction ops with
  | nil =>
      intro ap fs m rest h
      exact ⟨rest, by simpa [runOps] using h⟩
  | cons op ops ih =>
      intro ap fs m rest h
      cases op with
      | generate complete prompt =>
          obtain ⟨tail, ht⟩ := generate_response_history_extends complete ap.chatbot prompt
          exact ih _ fs m (rest ++ tail) (by rw [ht, h]; rfl)
      | voiceToText capture transcribe sec =>
          exact ih _ _ m rest h
      | textToVoice synthesize text autoplay =>
          exact ih _ _ m rest h

/-- `FS.write` followed by a read of the same path sees the written content. -/
theorem FS.write_read_same (fs : FS) (p c : String) : FS.write fs p c p = some c := by
  simp [FS.write]

/-- `FS.write` leaves every other path alone. -/
theorem FS.write_read_other (fs : FS) (p c q : String) (h : q ≠ p) :
    FS.write fs p c q = fs q := by
  simp [FS.write, h]

/-- Unfolding of the full pipeline when the completion collaborator succeeds:
the turn transcribes `capture (3 * 1000)`, runs the chat turn, writes the
synthesized answer to `output.mp3` and plays it with autoplay on. -/
theorem process_ok_unfold (capture : Nat → String) (transcribe : String → String)
    (complete : List Message → Except ε String) (synthesize : String → String)
    (fs : FS) (ap : AudioProcessor) (bot1 : ChatBot) (ans : String)
    (h : ChatBot.generate_response complete ap.chatbot (transcribe (capture (3 * 1000))) =
      (bot1, Except.ok ans)) :
    AudioProcessor.process_audio_and_generate_response capture transcribe complete synthesize
        fs ap =
      (Except.ok (transcribe (capture (3 * 1000))), { chatbot := bot1 },
        FS.write (FS.write fs "audio.wav" (capture (3 * 1000))) "output.mp3" (synthesize ans),
        [("output.mp3", true)]) := by
  unfold AudioProcessor.process_audio_and_generate_response AudioProcessor.record_audio
    AudioProcessor.play_audio
  simp only [FS.write_read_same, Option.getD_some, h]

/-- Unfolding of the full pipeline when the completion collaborator raises: the
error propagates, only `audio.wav` has been written, and nothing is played. -/
theorem process_error_unfold (capture : Nat → String) (transcribe : String → String)
    (complete : List Message → Except ε String) (synthesize : String → String)
    (fs : FS) (ap : AudioProcessor) (bot1 : ChatBot) (e : ε)
    (h : ChatBot.generate_response complete ap.chatbot (transcribe (capture (3 * 1000))) =
      (bot1, Except.error e)) :
    AudioProcessor.process_audio_and_generate_response capture transcribe complete synthesize
        fs ap =
      (Except.error e, { chatbot := bot1 },
        FS.write fs "audio.wav" (capture (3 * 1000)), []) := by
  unfold AudioProcessor.process_audio_and_generate_response AudioProcessor.record_audio
  simp only [FS.write_read_same, Option.getD_some, h]

/-- `runTurns` adds exactly two history entries per successful turn, starting
from any chatbot state. -/
theorem runTurns_length (complete : List Message → Except ε String)
    (prompts : List String) :
    ∀ (bot bot' : ChatBot), runTurns complete bot prompts = some bot' →
      bot'.history.length = bot.history.length + 2 * prompts.length := by
  induction prompts with
  | nil =>
      intro bot bot' h
      simp [runTurns] at h
      simp [← h]
  | cons p ps ih =>
      intro bot bot' h
      unfold runTurns at h
      revert h
      cases hg : ChatBot.generate_response complete bot p with
      | mk bot1 res =>
          cases res with
          | error e => intro h; exact absurd h (by simp)
          | ok r =>
              intro h
              have h1 := generate_response_ok_history complete bot bot1 p r hg
              have h2 := ih bot1 bot' h
              rw [h1] at h2
              simp only [List.length_append, List.length_cons, List.length_nil,
                List.length] at h2 ⊢
              omega

/-! ### Claims -/

/-- C1: for every call to `ChatBot.generate_response` that succeeds, exactly two
messages are appended to the history — first a user message with the given
prompt text, then an assistant message with the completion collaborator's reply
— and the function's return value (`Except.ok r` in the hypothesis) equals that
assistant message's content `r`. -/
theorem C1_generate_appends_user_then_assistant (complete : List Message → Except ε String)
    (bot bot1 : ChatBot) (prompt r : String)
    (h : ChatBot.generate_response complete bot prompt = (bot1, Except.ok r)) :
    bot1.history = bot.history ++
      [{ role := Role.user, content := prompt }, { role := Role.assistant, content := r }] :=
  generate_response_ok_history complete bot bot1 prompt r h

/-- Witness for C1: the spec scenario — `generate(history, "Hello")` with the
completion collaborator stubbed to return `"Hi there"` yields the history
`[system, {user, "Hello"}, {assistant, "Hi there"}]`. -/
theorem C1_generate_appends_user_then_assistant_witness :
    ((ChatBot.generate_response (ε := Unit) (fun _ => Except.ok "Hi there")
        (ChatBot.init "You are a helpful assistant") "Hello").1).history =
      (ChatBot.init "You are a helpful assistant").history ++
        [{ role := Role.user, content := "Hello" },
          { role := Role.assistant, content := "Hi there" }] :=
  C1_generate_appends_user_then_assistant (ε := Unit) (fun _ => Except.ok "Hi there")
    (ChatBot.init "You are a helpful assistant") _ "Hello" "Hi there" rfl

/-- C2: after any sequence of `generate_response`, `voice_to_text` and
`text_to_voice` calls on a freshly initialized session, the first element of
the history is still the system message created at session start. -/
theorem C2_first_element_is_system_message (protocol : String) (fs : FS)
    (ops : List (Op ε)) :
    ((runOps { chatbot := ChatBot.init protocol } fs ops).1).chatbot.history.head? =
      some { role := Role.system, content := protocol } := by
  obtain ⟨rest', h⟩ := runOps_head_cons ops { chatbot := ChatBot.init protocol } fs
    { role := Role.system, content := protocol } [] rfl
  rw [h]
  rfl

/-- C3: if the completion collaborator raises during `generate_response`, the
very same error is returned to the caller (no retry, no wrapping) and the
history ends with the appended user message and no assistant message — the
user append is not rolled back. -/
theorem C3_error_propagates_user_append_kept (complete : List Message → Except ε String)
    (bot : ChatBot) (prompt : String) (e : ε)
    (h : complete (bot.history ++ [{ role := Role.user, content := prompt }]) =
      Except.error e) :
    ChatBot.generate_response complete bot prompt =
      ({ bot with history := bot.history ++ [{ role := Role.user, content := prompt }] },
        Except.error e) :=
  generate_response_error_unfold complete bot prompt e h

/-- Witness for C3: a collaborator that always raises `"rate limit"` leaves the
history `[system, {user, "Hello"}]` and surfaces exactly that error. -/
theorem C3_error_propagates_user_append_kept_witness :
    ChatBot.generate_response (fun _ => Except.error "rate limit")
        (ChatBot.init "You are a helpful assistant") "Hello" =
      ({ protocol := "You are a helpful assistant",
          history := [{ role := Role.system, content := "You are a helpful assistant" },
            { role := Role.user, content := "Hello" }] },
        Except.error "rate limit") :=
  C3_error_propagates_user_append_kept (fun _ => Except.error "rate limit")
    (ChatBot.init "You are a helpful assistant") "Hello" "rate limit" rfl

/-- C4: `generate_response` passes the entire history to the completion
collaborator — the system message, all prior turns and the freshly appended
user message, in insertion order, nothing omitted. First conjunct: the call's
outcome is exactly the collaborator's output on that full appended history.
Second conjunct: a spy collaborator that returns its argument as an error
observes precisely `bot.history ++ [user prompt]`. -/
theorem C4_entire_history_sent_to_collaborator (bot : ChatBot) (prompt : String) :
    (∀ (ε : Type) (complete : List Message → Except ε String),
        (ChatBot.generate_response complete bot prompt).2 =
          complete (bot.history ++ [{ role := Role.user, content := prompt }])) ∧
      (ChatBot.generate_response (ε := List Message) Except.error bot prompt).2 =
        Except.error (bot.history ++ [{ role := Role.user, content := prompt }]) := by
  constructor
  · intro ε complete
    unfold ChatBot.generate_response
    cases hc : complete (bot.history ++ [{ role := Role.user, content := prompt }]) with
    | error e => simp [hc]
    | ok r => simp [hc]
  · rfl

/-- C5: `voice_to_text` and `text_to_voice` leave the audio processor — and so
the conversation history — unchanged, for any input text, duration, filesystem
and collaborators. -/
theorem C5_audio_ops_do_not_mutate_history (capture : Nat → String)
    (transcribe : String → String) (synthesize : String → String) (fs : FS)
    (ap : AudioProcessor) (sec : Nat) (text : String) (autoplay : Bool) :
    (AudioProcessor.voice_to_text capture transcribe fs ap sec).2.1 = ap ∧
    (AudioProcessor.text_to_voice synthesize fs ap text autoplay).2.1 = ap :=
  ⟨rfl, rfl⟩

/-- C6: after a session is initialized and N `generate_response` turns all
succeed, the history length is exactly 1 + 2N. -/
theorem C6_history_length_after_turns (complete : List Message → Except ε String)
    (protocol : String) (prompts : List String) (bot1 : ChatBot)
    (h : runTurns complete (ChatBot.init protocol) prompts = some bot1) :
    bot1.history.length = 1 + 2 * prompts.length := by
  have h2 := runTurns_length complete prompts (ChatBot.init protocol) bot1 h
  simp [ChatBot.init] at h2
  omega

/-- Witness for C6: two successful turns with a stub collaborator give a
history of length 5 = 1 + 2·2. -/
theorem C6_history_length_after_turns_witness :
    ({ protocol := "p",
        history := [{ role := Role.system, content := "p" },
          { role := Role.user, content := "a" }, { role := Role.assistant, content := "hi" },
          { role := Role.user, content := "b" }, { role := Role.assistant, content := "hi" }] } :
      ChatBot).history.length = 1 + 2 * (["a", "b"] : List String).length :=
  C6_history_length_after_turns (ε := Unit) (fun _ => Except.ok "hi") "p" ["a", "b"] _ rfl

/-- C7: `ChatBot.__init__` with system prompt `p` creates a history containing
exactly one message, of role system and content `p`; in particular with the
prompt `"You are a helpful assistant"`. -/
theorem C7_init_creates_single_system_message (p : String) :
    (ChatBot.init p).history = [{ role := Role.system, content := p }] ∧
    (ChatBot.init "You are a helpful assistant").history =
      [{ role := Role.system, content := "You are a helpful assistant" }] :=
  ⟨rfl, rfl⟩

/-- Counterexample to C8: `get_history` is `return self.history`, which hands
back the stored list object itself, so the returned value is not read-only —
appending to it changes the session's stored history. Concretely, with a fresh
session whose history list lives at reference 0, appending a message through
the value returned by `get_history` changes what the session stores. -/
theorem C8_get_history_counterexample :
    PyListStore.read
        (PyListStore.append
          { lists := fun _ => [{ role := Role.system, content := "You are a helpful assistant" }] }
          (ChatBotRef.get_history
            { protocol := "You are a helpful assistant", historyRef := 0 })
          { role := Role.user, content := "injected" })
        0 ≠
      PyListStore.read
        { lists := fun _ => [{ role := Role.system, content := "You are a helpful assistant" }] }
        0 := by
  decide

/-- C8 (amended): `get_history` returns the full ordered log of messages in
insertion order, but the returned value is an alias of the stored history (not
a copy or a read-only view): reading through the returned reference gives the
stored log, and appending a message through the returned reference appends it
to the session's stored history. -/
theorem C8_get_history_returns_aliased_log (bot0 : ChatBot) (s : PyListStore)
    (bot : ChatBotRef) (m : Message) :
    ChatBot.get_history bot0 = bot0.history ∧
    PyListStore.read s (ChatBotRef.get_history bot) = PyListStore.read s bot.historyRef ∧
    PyListStore.read (PyListStore.append s (ChatBotRef.get_history bot) m) bot.historyRef =
      PyListStore.read s bot.historyRef ++ [m] := by
  refine ⟨rfl, rfl, ?_⟩
  simp [PyListStore.read, PyListStore.append, ChatBotRef.get_history]

/-- C9: every synthesis call writes the synthesized audio to the single fixed
path `"output.mp3"`, overwriting any previous content of that path, and
`text_to_voice` returns exactly that fixed path for every input. For the full
pipeline: when the turn succeeds `"output.mp3"` holds the synthesized assistant
answer, whatever the filesystem held before; when the completion collaborator
raises, no synthesis happens and the path is untouched. -/
theorem C9_synthesis_writes_fixed_path (synthesize : String → String)
    (capture : Nat → String) (transcribe : String → String)
    (complete : List Message → Except ε String)
    (fs : FS) (ap : AudioProcessor) (text : String) (autoplay : Bool) :
    (AudioProcessor.text_to_voice synthesize fs ap text autoplay).1 = "output.mp3" ∧
    (AudioProcessor.text_to_voice synthesize fs ap text autoplay).2.2.1 "output.mp3" =
      some (synthesize text) ∧
    (AudioProcessor.process_audio_and_generate_response capture transcribe complete
        synthesize fs ap).2.2.1 "output.mp3" =
      (match ChatBot.generate_response complete ap.chatbot (transcribe (capture (3 * 1000))) with
        | (_, Except.ok ans) => some (synthesize ans)
        | (_, Except.error _) => fs "output.mp3") := by
  refine ⟨rfl, FS.write_read_same fs "output.mp3" (synthesize text), ?_⟩
  cases hg : ChatBot.generate_response complete ap.chatbot (transcribe (capture (3 * 1000))) with
  | mk bot1 res =>
      cases res with
      | ok ans =>
          simp only [process_ok_unfold capture transcribe complete synthesize fs ap bot1 ans hg]
          exact FS.write_read_same _ "output.mp3" (synthesize ans)
      | error e =>
          simp only [process_error_unfold capture transcribe complete synthesize fs ap bot1 e hg]
          exact FS.write_read_other fs "audio.wav" (capture (3 * 1000)) "output.mp3" (by decide)

/-- C10: the full pipeline takes no parameter that could suppress playback, and
whenever the turn completes it invokes the playback sink exactly once, on
`"output.mp3"`, with autoplay set to `true`; when the completion collaborator
raises, the turn aborts and nothing is played. -/
theorem C10_pipeline_plays_with_autoplay (capture : Nat → String)
    (transcribe : String → String) (complete : List Message → Except ε String)
    (synthesize : String → String) (fs : FS) (ap : AudioProcessor) :
    (AudioProcessor.process_audio_and_generate_response capture transcribe complete
        synthesize fs ap).2.2.2 =
      (match (AudioProcessor.process_audio_and_generate_response capture transcribe complete
          synthesize fs ap).1 with
        | Except.ok _ => [("output.mp3", true)]
        | Except.error _ => []) := by
  cases hg : ChatBot.generate_response complete ap.chatbot (transcribe (capture (3 * 1000))) with
  | mk bot1 res =>
      cases res with
      | ok ans =>
          simp only [process_ok_unfold capture transcribe complete synthesize fs ap bot1 ans hg]
      | error e =>
          simp only [process_error_unfold capture transcribe complete synthesize fs ap bot1 e hg]

end WynVoice
